import Mathlib

/-!
Verification of the authentication core of the weather API backend.

The development shallowly embeds the Python sources:
  auth.py   - configuration guard, password hashing wrappers, JWT issue and
              decode, and the current-user resolver dependency,
  main.py   - the signup route.

Modelling conventions:
  - Machine times are UTC POSIX timestamps truncated to whole seconds and
    represented as Int, matching the second-granularity comparison that the
    jose library performs on the exp and nbf claims.
  - JSON claim values are modelled by CVal (string or integer payload
    entries), and Python dicts by key-unique association lists.
  - The JWS wire format (three base64url segments) is modelled symbolically:
    a Wire value is either a structured JWT (header algorithm, payload,
    signature) or an arbitrary non-JWT string.  The HMAC signature is
    modelled as a free constructor over (algorithm, payload, key), the
    standard symbolic model of a MAC.
  - Fallible Python code returns Except; HTTPException is modelled by its
    status code and detail string (response headers are not modelled).
-/

deriving instance DecidableEq for Except

/-- A JSON claim value: the application only ever stores strings and
integer timestamps in token payloads. -/
inductive CVal where
  | s (v : String)
  | i (v : Int)
deriving DecidableEq, Repr

/-- A Python dict with string keys, as a key-unique association list in
insertion order. -/
abbrev Claims := List (String × CVal)

/-- Python d.get(k): first binding of k, if any. -/
def dictGet : Claims → String → Option CVal
  | [], _ => none
  | (k0, v0) :: t, k => if k0 = k then some v0 else dictGet t k

/-- Python d.update(k = v) on a key-unique dict: replace the binding in
place if the key exists, otherwise append it. -/
def dictSet : Claims → String → CVal → Claims
  | [], k, v => [(k, v)]
  | (k0, v0) :: t, k, v =>
    if k0 = k then (k, v) :: t else (k0, v0) :: dictSet t k v

/-- Whitespace characters stripped by Python int() before parsing. -/
def isPyWs (c : Char) : Bool :=
  c = ' ' || c = '\t' || c = '\n' || c = '\r' || c = '\u000B' || c = '\u000C'

/-- Strip leading and trailing whitespace from a character list. -/
def trimWs (l : List Char) : List Char :=
  ((l.dropWhile isPyWs).reverse.dropWhile isPyWs).reverse

/-- ASCII digit test by code point (avoids UInt32 order instances). -/
def isDigitC (c : Char) : Bool :=
  48 ≤ c.toNat && c.toNat ≤ 57

/-- Digit grammar of a Python int literal after the sign: digits with
single underscores allowed between digits. -/
def digitsGroupOk : List Char → Bool
  | [] => false
  | [c] => isDigitC c
  | c :: '_' :: rest => isDigitC c && digitsGroupOk rest
  | c :: rest => isDigitC c && digitsGroupOk rest

/-- Numeric value of a digit list (underscores removed by the caller). -/
def natOfDigits (l : List Char) : Nat :=
  l.foldl (fun a c => a * 10 + (c.toNat - 48)) 0

/-- Model of Python int(str): strip whitespace, then an optional sign
followed by underscore-grouped decimal digits; None models ValueError.
(Non-ASCII decimal digits are not modelled; the application only ever
feeds it environment-variable text.) -/
def pyInt (s : String) : Option Int :=
  match trimWs s.data with
  | [] => none
  | c :: rest =>
    if c = '-' then
      if digitsGroupOk rest then
        some (-(natOfDigits (rest.filter (fun d => d != '_')) : Int))
      else none
    else if c = '+' then
      if digitsGroupOk rest then
        some ((natOfDigits (rest.filter (fun d => d != '_')) : Int))
      else none
    else
      if digitsGroupOk (c :: rest) then
        some ((natOfDigits ((c :: rest).filter (fun d => d != '_')) : Int))
      else none

/-- The process environment: os.getenv. -/
def Env := String → Option String

/-- Python falsiness of an optional environment value: absent or empty. -/
def falsyOpt : Option String → Bool
  | none => true
  | some s => s = ""

/-- The validated configuration built by auth.py lines 20-28. -/
structure Config where
  secret_key : String
  algorithm : String
  access_token_expire_minutes : Int
deriving DecidableEq, Repr

/-- auth.py lines 20-28: read SECRET_KEY, ALGORITHM and
ACCESS_TOKEN_EXPIRE_MINUTES, raise ValueError if any is absent or empty,
then convert the lifetime with int(); an error value models the process
aborting at import time. -/
def load_auth_config (env : Env) : Except String Config :=
  let sk := env "SECRET_KEY"
  let alg := env "ALGORITHM"
  let exp := env "ACCESS_TOKEN_EXPIRE_MINUTES"
  if falsyOpt sk || falsyOpt alg || falsyOpt exp then
    Except.error "Missing authentication configuration in .env"
  else
    match pyInt (exp.getD "") with
    | some n => Except.ok ⟨sk.getD "", alg.getD "", n⟩
    | none => Except.error "invalid literal for int() with base 10"

/-- Condition under which auth.py module import succeeds: all three
settings present and non-empty, and the lifetime text parses as an
integer (of any sign). -/
def env_ok (env : Env) : Bool :=
  !falsyOpt (env "SECRET_KEY") && !falsyOpt (env "ALGORITHM") &&
    !falsyOpt (env "ACCESS_TOKEN_EXPIRE_MINUTES") &&
    (pyInt ((env "ACCESS_TOKEN_EXPIRE_MINUTES").getD "")).isSome

/-- Symbolic HMAC signature over the JWS signing input: the header
algorithm, the payload, and the shared secret.  Two signatures are equal
exactly when algorithm, payload and key coincide (ideal MAC). -/
structure Sig where
  alg : String
  payload : Claims
  key : String
deriving DecidableEq, Repr

/-- A candidate token string on the wire: either a well-formed compact JWT
(header algorithm, claims payload, signature segment) or any other string,
which the decoder rejects as malformed. -/
inductive Wire where
  | jwt (alg : String) (payload : Claims) (sig : Sig)
  | raw (s : String)
deriving DecidableEq, Repr

/-- Failure kinds raised by jose.jwt.decode, all subclasses of JWTError:
malformed token text or non-dict payload, header algorithm outside the
allowed list, signature mismatch, expired exp claim, and the remaining
claim-validation errors (JWTClaimsError, covering bad claim types, a
future nbf, an aud claim with no expected audience, and an at_hash claim
with no access token to compare). -/
inductive JoseError where
  | malformed
  | algNotAllowed
  | invalidSignature
  | expiredSignature
  | claimsError
deriving DecidableEq, Repr

/-- jose.jwt.encode(payload, key, algorithm): serialize the payload and
sign it with the key under the given algorithm. -/
def jwt_encode (payload : Claims) (key : String) (alg : String) : Wire :=
  Wire.jwt alg payload (Sig.mk alg payload key)

/-- Python int(value) applied to a claim value, as jose does for the
numeric registered claims: integers pass through, strings are parsed. -/
def cvalAsInt : CVal → Option Int
  | CVal.i n => some n
  | CVal.s s => pyInt s

/-- jose _validate_iat: if present, the iat claim must parse as an
integer; its value is not otherwise checked. -/
def check_iat (payload : Claims) : Except JoseError Unit :=
  match dictGet payload "iat" with
  | none => Except.ok ()
  | some v =>
    match cvalAsInt v with
    | some _ => Except.ok ()
    | none => Except.error JoseError.claimsError

/-- jose _validate_nbf with zero leeway: a parseable nbf strictly in the
future is rejected (JWTClaimsError in jose). -/
def check_nbf (payload : Claims) (now : Int) : Except JoseError Unit :=
  match dictGet payload "nbf" with
  | none => Except.ok ()
  | some v =>
    match cvalAsInt v with
    | some nbf => if now < nbf then Except.error JoseError.claimsError else Except.ok ()
    | none => Except.error JoseError.claimsError

/-- jose _validate_exp with zero leeway: the token is expired exactly when
exp < now; at now = exp it is still accepted. -/
def check_exp (payload : Claims) (now : Int) : Except JoseError Unit :=
  match dictGet payload "exp" with
  | none => Except.ok ()
  | some v =>
    match cvalAsInt v with
    | some e => if e < now then Except.error JoseError.expiredSignature else Except.ok ()
    | none => Except.error JoseError.claimsError

/-- jose _validate_aud with audience=None (as auth.py calls decode): a
present aud claim cannot match the missing expected audience and is
rejected. -/
def check_aud (payload : Claims) : Except JoseError Unit :=
  match dictGet payload "aud" with
  | none => Except.ok ()
  | some _ => Except.error JoseError.claimsError

/-- jose _validate_sub with subject=None: a present sub claim must be a
string. -/
def check_sub (payload : Claims) : Except JoseError Unit :=
  match dictGet payload "sub" with
  | none => Except.ok ()
  | some (CVal.s _) => Except.ok ()
  | some (CVal.i _) => Except.error JoseError.claimsError

/-- jose _validate_jti: a present jti claim must be a string. -/
def check_jti (payload : Claims) : Except JoseError Unit :=
  match dictGet payload "jti" with
  | none => Except.ok ()
  | some (CVal.s _) => Except.ok ()
  | some (CVal.i _) => Except.error JoseError.claimsError

/-- jose _validate_at_hash with access_token=None (as auth.py calls
decode): a present at_hash claim has nothing to compare against and is
rejected. -/
def check_at_hash (payload : Claims) : Except JoseError Unit :=
  match dictGet payload "at_hash" with
  | none => Except.ok ()
  | some _ => Except.error JoseError.claimsError

/-- jose.jwt.decode(token, key, algorithms) at time now: parse the compact
serialization, require the header algorithm to be in the allowed list,
verify the signature, then run the default claim validators in the order
jose runs them (iat, nbf, exp, aud, sub, jti, at_hash; iss is skipped
because no expected issuer is supplied). -/
def jose_decode (w : Wire) (key : String) (algorithms : List String) (now : Int) :
    Except JoseError Claims :=
  match w with
  | Wire.raw _ => Except.error JoseError.malformed
  | Wire.jwt alg payload sig =>
    if alg ∈ algorithms then
      if sig = Sig.mk alg payload key then
        match check_iat payload with
        | Except.error e => Except.error e
        | Except.ok _ =>
          match check_nbf payload now with
          | Except.error e => Except.error e
          | Except.ok _ =>
            match check_exp payload now with
            | Except.error e => Except.error e
            | Except.ok _ =>
              match check_aud payload with
              | Except.error e => Except.error e
              | Except.ok _ =>
                match check_sub payload with
                | Except.error e => Except.error e
                | Except.ok _ =>
                  match check_jti payload with
                  | Except.error e => Except.error e
                  | Except.ok _ =>
                    match check_at_hash payload with
                    | Except.error e => Except.error e
                    | Except.ok _ => Except.ok payload
      else Except.error JoseError.invalidSignature
    else Except.error JoseError.algNotAllowed

/-- An HTTPException, by status code and detail string (response headers
are not modelled). -/
structure HTTPError where
  status : Nat
  detail : String
deriving DecidableEq, Repr

/-- auth.py lines 53-59, decode_access_token: decode the token with the
configured secret and algorithm list [ALGORITHM]; every JWTError is
caught and collapsed into the single HTTPException 401 with detail
"Invalid or expired token". -/
def decode_access_token (cfg : Config) (w : Wire) (now : Int) :
    Except HTTPError Claims :=
  match jose_decode w cfg.secret_key [cfg.algorithm] now with
  | Except.ok payload => Except.ok payload
  | Except.error _ => Except.error ⟨401, "Invalid or expired token"⟩

/-- The Python expression (expires_delta or timedelta(minutes = M)):
None and the zero timedelta are falsy, so both select the default; any
non-zero timedelta, including a negative one, is used as given.  Deltas
are in whole seconds. -/
def pyOrDefault (expires_delta : Option Int) (defaultSecs : Int) : Int :=
  match expires_delta with
  | none => defaultSecs
  | some d => if d = 0 then defaultSecs else d

/-- auth.py lines 46-51, create_access_token: copy the claims, set exp to
now plus the chosen delta (default ACCESS_TOKEN_EXPIRE_MINUTES minutes),
and sign with the configured secret and algorithm. -/
def create_access_token (cfg : Config) (data : Claims)
    (expires_delta : Option Int) (now : Int) : Wire :=
  let to_encode := data
  let expire := now + pyOrDefault expires_delta (cfg.access_token_expire_minutes * 60)
  let to_encode := dictSet to_encode "exp" (CVal.i expire)
  jwt_encode to_encode cfg.secret_key cfg.algorithm

/-- Failure kinds of passlib CryptContext.verify: UnknownHashError when no
configured scheme identifies the hash string, and the ValueError raised
when an identified hash fails structural parsing. -/
inductive PasslibError where
  | unknownHash
  | malformedHash
deriving DecidableEq, Repr

/-- List-level character prefix test (avoids stuck String primitives). -/
def charsPre : List Char → List Char → Bool
  | [], _ => true
  | _ :: _, [] => false
  | a :: as, b :: bs => a = b && charsPre as bs

/-- passlib bcrypt handler identification: the hash string must start with
one of the bcrypt ident markers. -/
def bcrypt_identify (h : String) : Bool :=
  ["$2$", "$2a$", "$2b$", "$2x$", "$2y$"].any (fun p => charsPre p.data h.data)

/-- Split a character list on a separator character. -/
def splitOnChar (sep : Char) : List Char → List (List Char)
  | [] => [[]]
  | c :: rest =>
    if c = sep then [] :: splitOnChar sep rest
    else
      match splitOnChar sep rest with
      | g :: gs => (c :: g) :: gs
      | [] => [[c]]

/-- A character of the bcrypt base64 alphabet (./A-Za-z0-9), by code
point. -/
def bcrypt64Char (c : Char) : Bool :=
  c = '.' || c = '/' || (48 ≤ c.toNat && c.toNat ≤ 57) ||
    (65 ≤ c.toNat && c.toNat ≤ 90) || (97 ≤ c.toNat && c.toNat ≤ 122)

/-- Structural shape of a modular-crypt bcrypt hash as passlib parses it:
a supported ident, a two-digit cost within the bcrypt rounds range 4-31,
and 53 characters of salt plus digest.  The 2x ident is identified but
passlib from_string refuses it (crypt_blowfish 2x hashes unsupported),
and an out-of-range rounds value is likewise refused, so both count as
not well-formed here; an identified hash failing this parse raises a
ValueError in passlib. -/
def bcrypt_wellformed (h : String) : Bool :=
  match splitOnChar '$' h.data with
  | [[], ident, cost, body] =>
    (["2", "2a", "2b", "2y"].any (fun p => p.data = ident)) &&
      cost.length = 2 && cost.all isDigitC &&
      4 ≤ natOfDigits cost && natOfDigits cost ≤ 31 &&
      body.length = 53 && body.all bcrypt64Char
  | _ => false

/-- auth.py lines 39-41, verify_password: delegate to
CryptContext(schemes=["bcrypt"]).verify.  The bcrypt digest comparison
itself is the cryptographic oracle bc, passed as a parameter; passlib
raises (rather than returning a boolean) on any hash string it cannot
identify or parse. -/
def verify_password (bc : String → String → Bool)
    (password : String) (hashed : String) : Except PasslibError Bool :=
  if bcrypt_identify hashed then
    if bcrypt_wellformed hashed then Except.ok (bc password hashed)
    else Except.error PasslibError.malformedHash
  else Except.error PasslibError.unknownHash

/-- The columns of models.User that the authentication core reads. -/
structure User where
  id : Nat
  username : String
  hashed_password : String
deriving DecidableEq, Repr

/-- The value of the Authorization header, as the scheme word and the
remainder after the first space (fastapi get_authorization_scheme_param
partitions the raw header at its first space). -/
structure AuthHeader where
  scheme : String
  param : Wire
deriving DecidableEq, Repr

/-- The parts of an incoming HTTP request that token extraction could
read: the cookie jar and the Authorization header. -/
structure Request where
  cookies : List (String × Wire)
  authorization : Option AuthHeader
deriving DecidableEq, Repr

/-- ASCII lowercase of a string by character map (str.lower in the
relevant ASCII range). -/
def strLower (s : String) : String :=
  String.mk (s.data.map Char.toLower)

/-- fastapi OAuth2PasswordBearer.__call__ with auto_error=True: read the
Authorization header, split scheme from credentials, and require the
scheme to be bearer case-insensitively; otherwise raise HTTPException 401
"Not authenticated".  Cookies are never consulted. -/
def oauth2_scheme (req : Request) : Except HTTPError Wire :=
  match req.authorization with
  | none => Except.error ⟨401, "Not authenticated"⟩
  | some h =>
    if strLower h.scheme = "bearer" then Except.ok h.param
    else Except.error ⟨401, "Not authenticated"⟩

/-- The SQLAlchemy filter User.username == key applied to the sub claim
value: a string claim compares by string equality; an integer claim never
matches a string username column. -/
def userMatches (v : CVal) (u : User) : Bool :=
  match v with
  | CVal.s s => u.username = s
  | CVal.i _ => false

/-- auth.py lines 66-77, get_current_user: extract the bearer token via
oauth2_scheme, decode it, read the sub claim (401 "Invalid token" when
absent), then query the user store by username (404 "User not found" when
missing).  The second component records every username key the user-store
query was invoked with, to witness when the store is not consulted. -/
def get_current_user (cfg : Config) (store : List User) (req : Request)
    (now : Int) : Except HTTPError User × List CVal :=
  match oauth2_scheme req with
  | Except.error e => (Except.error e, [])
  | Except.ok tok =>
    match decode_access_token cfg tok now with
    | Except.error e => (Except.error e, [])
    | Except.ok payload =>
      match dictGet payload "sub" with
      | none => (Except.error ⟨401, "Invalid token"⟩, [])
      | some uname =>
        match store.find? (userMatches uname) with
        | none => (Except.error ⟨404, "User not found"⟩, [uname])
        | some u => (Except.ok u, [uname])

/-- The signup request body (schemas.UserCreate). -/
structure UserCreate where
  username : String
  password : String
deriving DecidableEq, Repr

/-- main.py lines 73-88, signup: query the store for the username; on a
hit raise HTTPException 409 before anything is hashed or written,
otherwise insert the new user (the database assigns the next id) and
return it.  The hasher pwd_context.hash is the parameter hashPw; the
second component is the store after the request. -/
def signup (hashPw : String → String) (store : List User)
    (user : UserCreate) : Except HTTPError User × List User :=
  match store.find? (fun x => x.username = user.username) with
  | some _ => (Except.error ⟨409, "Username already exists"⟩, store)
  | none =>
    let new_user : User := ⟨store.length + 1, user.username, hashPw user.password⟩
    (Except.ok new_user, store ++ [new_user])

/-- A heap of Python dict objects; a dict reference is an index into the
heap. -/
abbrev PyStore := List Claims

/-- auth.py lines 46-51 again, now with explicit dict aliasing:
data.copy() allocates a fresh dict at the end of the heap,
to_encode.update mutates only that fresh dict, and the token is encoded
from it.  Returns the heap after the call together with the token. -/
def create_access_token_heap (cfg : Config) (heap : PyStore) (dataRef : Nat)
    (expires_delta : Option Int) (now : Int) : PyStore × Wire :=
  let data := heap.getD dataRef []
  let copyRef := heap.length
  let heap1 := heap ++ [data]
  let expire := now + pyOrDefault expires_delta (cfg.access_token_expire_minutes * 60)
  let heap2 := heap1.set copyRef (dictSet (heap1.getD copyRef []) "exp" (CVal.i expire))
  (heap2, jwt_encode (heap2.getD copyRef []) cfg.secret_key cfg.algorithm)

/-- A concrete configuration for counterexamples and witnesses: secret
"topsecret", algorithm "HS256", 30-minute default lifetime. -/
def cfg0 : Config := ⟨"topsecret", "HS256", 30⟩

/-- A concrete claims set holding only a subject. -/
def data0 : Claims := [("sub", CVal.s "alice")]

/-- A concrete user record. -/
def alice : User := ⟨1, "alice", "hA"⟩

/-- A second concrete user record, distinct from alice. -/
def bob : User := ⟨2, "bob", "hB"⟩

/-- A concrete user store holding alice and bob. -/
def store0 : List User := [alice, bob]

/-- A valid token for alice under cfg0, issued at time 1000 with a
one-hour delta. -/
def tokAlice : Wire := create_access_token cfg0 [("sub", CVal.s "alice")] (some 3600) 1000

/-- A valid token for bob under cfg0, issued at time 1000 with a one-hour
delta. -/
def tokBob : Wire := create_access_token cfg0 [("sub", CVal.s "bob")] (some 3600) 1000

/-- A request carrying both a valid access_token cookie (for alice) and a
valid bearer header (for bob). -/
def reqBoth : Request := ⟨[("access_token", tokAlice)], some ⟨"Bearer", tokBob⟩⟩

/-- A token whose claims carry a not-before instant in the future of its
issue time. -/
def tokNbf : Wire :=
  create_access_token cfg0 [("sub", CVal.s "alice"), ("nbf", CVal.i 2000)] (some 60) 1000

/-- A correctly signed token that is expired by time 2000. -/
def tokExpired : Wire := create_access_token cfg0 [("sub", CVal.s "a")] (some 10) 1000

/-- A token over the same payload whose signature was made with a
different key. -/
def tokBadSig : Wire :=
  Wire.jwt "HS256" [("sub", CVal.s "a")] ⟨"HS256", [("sub", CVal.s "a")], "wrong"⟩

/-- An environment where all three settings are present and the lifetime
text is "0": a non-positive integer. -/
def env0 : Env := fun k =>
  if k = "SECRET_KEY" then some "s"
  else if k = "ALGORITHM" then some "HS256"
  else if k = "ACCESS_TOKEN_EXPIRE_MINUTES" then some "0"
  else none

/-- A structurally well-formed bcrypt hash string (ident 2b, cost 12, 53
base64 characters of salt and digest). -/
def hash0 : String :=
  "$2b$12$abcdefghijklmnopqrstuvABCDEFGHIJKLMNOPQRSTUV123456789"

/-- Setting one key of a dict leaves every other key unchanged. -/
theorem dictGet_dictSet_ne (d : Claims) (k k2 : String) (v : CVal)
    (h : k2 ≠ k) : dictGet (dictSet d k v) k2 = dictGet d k2 := by
  induction d with
  | nil => simp [dictSet, dictGet, Ne.symm h]
  | cons hd tl ih =>
    obtain ⟨k0, v0⟩ := hd
    by_cases h0 : k0 = k
    · subst h0
      have hk : ¬k0 = k2 := fun hh => h hh.symm
      simp [dictSet, dictGet, hk]
    · simp only [dictSet, if_neg h0, dictGet]
      by_cases h2 : k0 = k2 <;> simp [h2, ih]

/-- Setting a key of a dict makes that key read back the new value. -/
theorem dictGet_dictSet_self (d : Claims) (k : String) (v : CVal) :
    dictGet (dictSet d k v) k = some v := by
  induction d with
  | nil => simp [dictSet, dictGet]
  | cons hd tl ih =>
    obtain ⟨k0, v0⟩ := hd
    by_cases h0 : k0 = k
    · simp [dictSet, dictGet, h0]
    · simp [dictSet, dictGet, h0, ih]

/-- Frame property of the heap shape produced by allocate-then-set: writing
the freshly appended cell does not change any existing cell. -/
theorem list_set_append_frame (heap : List Claims) (d x : Claims) (r : Nat)
    (h : r < heap.length) :
    ((heap ++ [d]).set heap.length x).get? r = heap.get? r := by
  induction heap generalizing r with
  | nil => exact absurd h (Nat.not_lt_zero r)
  | cons hd tl ih =>
    cases r with
    | zero => rfl
    | succ n => exact ih n (Nat.lt_of_succ_lt_succ h)

/-- Claim C1, counterexample: a request carrying a valid access_token
cookie for alice and a valid bearer header for bob resolves to bob.  The
claim says resolution must use the cookie identity (alice); the code
never reads cookies, so the bearer identity wins. -/
theorem cookie_preference_counterexample :
    get_current_user cfg0 store0 reqBoth 1000 = (Except.ok bob, [CVal.s "bob"])
      ∧ bob.username ≠ "alice" := by decide

/-- Claim C1, amended: the Identity Resolver takes its candidate token
only from the Authorization Bearer header; the access_token cookie is
ignored (resolution is invariant under the cookie jar), and when both a
cookie token and a valid bearer token are present the bearer identity is
used. -/
theorem bearer_header_only_resolution :
    (∀ (cfg : Config) (store : List User) (cs : List (String × Wire))
        (auth : Option AuthHeader) (now : Int),
        get_current_user cfg store ⟨cs, auth⟩ now
          = get_current_user cfg store ⟨[], auth⟩ now) ∧
    (∀ (cfg : Config) (store : List User) (cs : List (String × Wire))
        (b : String) (ub : User) (L now : Int), 0 < L →
        store.find? (userMatches (CVal.s b)) = some ub →
        get_current_user cfg store
            ⟨cs, some ⟨"Bearer", create_access_token cfg [("sub", CVal.s b)] (some L) now⟩⟩ now
          = (Except.ok ub, [CVal.s b])) := by
  constructor
  · intro cfg store cs auth now
    rfl
  · intro cfg store cs b ub L now hL hfind
    have hL0 : L ≠ 0 := by omega
    have hexp : ¬(now + L < now) := by omega
    have hsch : strLower "Bearer" = "bearer" := by decide
    simp [get_current_user, oauth2_scheme, hsch, decode_access_token, jose_decode,
      create_access_token, jwt_encode, pyOrDefault, hL0, dictSet, dictGet,
      check_iat, check_nbf, check_exp, check_aud, check_sub, check_jti,
      check_at_hash, cvalAsInt, hexp, hfind]

/-- Claim C1, witness for the amended theorem at a concrete request. -/
theorem bearer_header_only_resolution_witness :
    get_current_user cfg0 store0
        ⟨[("access_token", tokAlice)],
         some ⟨"Bearer", create_access_token cfg0 [("sub", CVal.s "bob")] (some 3600) 1000⟩⟩ 1000
      = (Except.ok bob, [CVal.s "bob"]) :=
  bearer_header_only_resolution.2 cfg0 store0 [("access_token", tokAlice)]
    "bob" bob 3600 1000 (by decide) (by decide)

/-- Claim C8, confirmed: a request with no access_token cookie and no
Authorization header with bearer scheme is rejected with the 401
"Not authenticated" raised by the oauth2 dependency, and the user-store
query list is empty: the store is never consulted. -/
theorem no_token_unauthenticated (cfg : Config) (store : List User)
    (req : Request) (now : Int)
    (hcookie : ∀ kv ∈ req.cookies, kv.1 ≠ "access_token")
    (hheader : ∀ h, req.authorization = some h → strLower h.scheme ≠ "bearer") :
    get_current_user cfg store req now
      = (Except.error ⟨401, "Not authenticated"⟩, []) := by
  obtain ⟨cs, auth⟩ := req
  cases auth with
  | none => rfl
  | some h =>
    have hne := hheader h rfl
    simp [get_current_user, oauth2_scheme, hne]

/-- Claim C8, witness at a concrete tokenless request. -/
theorem no_token_unauthenticated_witness :
    get_current_user cfg0 store0 ⟨[("theme", Wire.raw "dark")], none⟩ 0
      = (Except.error ⟨401, "Not authenticated"⟩, []) :=
  no_token_unauthenticated cfg0 store0 ⟨[("theme", Wire.raw "dark")], none⟩ 0
    (by decide) (fun h hh => Option.noConfusion hh)

/-- Claim C9, confirmed: create_access_token does not mutate the claims
dict its caller passed: the exp entry is written only to the fresh copy
made by data.copy(), so the heap cell holding the argument reads back
unchanged after the call. -/
theorem create_token_preserves_caller_dict (cfg : Config) (heap : PyStore)
    (dataRef : Nat) (ed : Option Int) (now : Int) (h : dataRef < heap.length) :
    ((create_access_token_heap cfg heap dataRef ed now).1).get? dataRef
      = heap.get? dataRef := by
  simp only [create_access_token_heap]
  exact list_set_append_frame heap _ _ dataRef h

/-- Claim C9, witness on a one-dict heap. -/
theorem create_token_preserves_caller_dict_witness :
    ((create_access_token_heap cfg0 [data0] 0 (some 60) 1000).1).get? 0
      = [data0].get? 0 :=
  create_token_preserves_caller_dict cfg0 [data0] 0 (some 60) 1000 (by decide)

/-- Claim C10, confirmed: when the requested username already exists,
signup answers 409 "Username already exists" and returns the store
unchanged; the result does not depend on the hasher at all, so no
password hash is computed or stored on the conflict path. -/
theorem signup_conflict_atomic (hashPw : String → String) (store : List User)
    (u : UserCreate) (hdup : ∃ x ∈ store, x.username = u.username) :
    signup hashPw store u
      = (Except.error ⟨409, "Username already exists"⟩, store) := by
  obtain ⟨x, hx, he⟩ := hdup
  cases hfind : store.find? (fun y => y.username = u.username) with
  | some w => simp [signup, hfind]
  | none =>
    rw [List.find?_eq_none] at hfind
    exact absurd (by simp [he]) (hfind x hx)

/-- Claim C10, witness at a duplicate username. -/
theorem signup_conflict_atomic_witness :
    signup (fun p => p) store0 ⟨"alice", "pw"⟩
      = (Except.error ⟨409, "Username already exists"⟩, store0) :=
  signup_conflict_atomic (fun p => p) store0 ⟨"alice", "pw"⟩ (by decide)

/-- Claim C2, counterexample: a claims set that carries a subject together
with a not-before instant in the future is issued fine with a positive
lifetime, yet verification immediately after issuance fails (jose
validates the registered nbf claim by default), contradicting the
universally quantified round-trip property. -/
theorem roundtrip_nbf_counterexample :
    decode_access_token cfg0 tokNbf 1000
      = Except.error ⟨401, "Invalid or expired token"⟩ := by decide

/-- Claim C2, amended: the issue/verify round trip preserves the subject
for every claims set that carries a string subject and none of the
registered claims that decode validates against this call pattern (iat,
nbf, aud, jti, at_hash), for every positive lifetime, when verified at
issuance time. -/
theorem token_roundtrip_amended (cfg : Config) (data : Claims) (s : String)
    (L now : Int) (hL : 0 < L)
    (hsub : dictGet data "sub" = some (CVal.s s))
    (hiat : dictGet data "iat" = none) (hnbf : dictGet data "nbf" = none)
    (haud : dictGet data "aud" = none) (hjti : dictGet data "jti" = none)
    (hath : dictGet data "at_hash" = none) :
    ∃ p, decode_access_token cfg (create_access_token cfg data (some L) now) now
          = Except.ok p
        ∧ dictGet p "sub" = some (CVal.s s) := by
  have hL0 : L ≠ 0 := by omega
  have hexp : ¬(now + L < now) := by omega
  have h1 : dictGet (dictSet data "exp" (CVal.i (now + L))) "iat" = none := by
    rw [dictGet_dictSet_ne _ _ _ _ (by decide)]; exact hiat
  have h2 : dictGet (dictSet data "exp" (CVal.i (now + L))) "nbf" = none := by
    rw [dictGet_dictSet_ne _ _ _ _ (by decide)]; exact hnbf
  have h3 : dictGet (dictSet data "exp" (CVal.i (now + L))) "aud" = none := by
    rw [dictGet_dictSet_ne _ _ _ _ (by decide)]; exact haud
  have h4 : dictGet (dictSet data "exp" (CVal.i (now + L))) "jti" = none := by
    rw [dictGet_dictSet_ne _ _ _ _ (by decide)]; exact hjti
  have h5 : dictGet (dictSet data "exp" (CVal.i (now + L))) "at_hash" = none := by
    rw [dictGet_dictSet_ne _ _ _ _ (by decide)]; exact hath
  have h6 : dictGet (dictSet data "exp" (CVal.i (now + L))) "sub" = some (CVal.s s) := by
    rw [dictGet_dictSet_ne _ _ _ _ (by decide)]; exact hsub
  have h7 : dictGet (dictSet data "exp" (CVal.i (now + L))) "exp"
      = some (CVal.i (now + L)) := dictGet_dictSet_self data "exp" _
  refine ⟨dictSet data "exp" (CVal.i (now + L)), ?_, h6⟩
  simp [decode_access_token, jose_decode, create_access_token, jwt_encode,
    pyOrDefault, hL0, check_iat, check_nbf, check_exp, check_aud, check_sub,
    check_jti, check_at_hash, cvalAsInt, h1, h2, h3, h4, h5, h6, h7, hexp]

/-- Claim C2, witness for the amended round trip on a plain subject-only
claims set. -/
theorem token_roundtrip_amended_witness :
    ∃ p, decode_access_token cfg0 (create_access_token cfg0 data0 (some 60) 1000) 1000
          = Except.ok p
        ∧ dictGet p "sub" = some (CVal.s "alice") :=
  token_roundtrip_amended cfg0 data0 "alice" 60 1000 (by decide) (by decide)
    (by decide) (by decide) (by decide) (by decide) (by decide)

/-- Claim C3, confirmed: decode rejects with an invalid-token error (not
an expiry error) every token whose signature segment differs from the
genuine signature over its contents, every token signed under a key other
than the configured secret, and every token whose header algorithm is not
the configured algorithm. -/
theorem signature_and_algorithm_rejection :
    (∀ (cfg : Config) (payload : Claims) (sg : Sig) (now : Int),
        sg ≠ Sig.mk cfg.algorithm payload cfg.secret_key →
        jose_decode (Wire.jwt cfg.algorithm payload sg) cfg.secret_key
            [cfg.algorithm] now
          = Except.error JoseError.invalidSignature) ∧
    (∀ (cfg : Config) (payload : Claims) (otherKey : String) (now : Int),
        otherKey ≠ cfg.secret_key →
        jose_decode (jwt_encode payload otherKey cfg.algorithm) cfg.secret_key
            [cfg.algorithm] now
          = Except.error JoseError.invalidSignature) ∧
    (∀ (cfg : Config) (otherAlg : String) (payload : Claims) (sg : Sig) (now : Int),
        otherAlg ≠ cfg.algorithm →
        jose_decode (Wire.jwt otherAlg payload sg) cfg.secret_key
            [cfg.algorithm] now
          = Except.error JoseError.algNotAllowed) := by
  refine ⟨?_, ?_, ?_⟩
  · intro cfg payload sg now h
    simp [jose_decode, h]
  · intro cfg payload otherKey now h
    simp [jose_decode, jwt_encode, Sig.mk.injEq, h]
  · intro cfg otherAlg payload sg now h
    simp [jose_decode, h]

/-- Claim C3, witness: a tampered signature segment, a token signed with
a different secret, and a token with a different header algorithm, each
at concrete inputs. -/
theorem signature_and_algorithm_rejection_witness :
    jose_decode (Wire.jwt "HS256" data0 ⟨"HS256", data0, "evil"⟩) "topsecret"
        ["HS256"] 0 = Except.error JoseError.invalidSignature ∧
    jose_decode (jwt_encode data0 "evil" "HS256") "topsecret" ["HS256"] 0
      = Except.error JoseError.invalidSignature ∧
    jose_decode (Wire.jwt "none" data0 ⟨"none", data0, "topsecret"⟩) "topsecret"
        ["HS256"] 0 = Except.error JoseError.algNotAllowed :=
  ⟨signature_and_algorithm_rejection.1 cfg0 data0 ⟨"HS256", data0, "evil"⟩ 0 (by decide),
   signature_and_algorithm_rejection.2.1 cfg0 data0 "evil" 0 (by decide),
   signature_and_algorithm_rejection.2.2 cfg0 "none" data0 ⟨"none", data0, "topsecret"⟩ 0 (by decide)⟩

/-- Claim C6, counterexample: an expired-but-correctly-signed token and a
wrongly-signed token are distinguished inside the jose layer, but
decode_access_token maps both to the byte-identical HTTPException 401
"Invalid or expired token": the caller cannot tell the two kinds apart. -/
theorem error_kinds_collapsed_counterexample :
    jose_decode tokExpired "topsecret" ["HS256"] 2000
      = Except.error JoseError.expiredSignature ∧
    jose_decode tokBadSig "topsecret" ["HS256"] 2000
      = Except.error JoseError.invalidSignature ∧
    decode_access_token cfg0 tokExpired 2000
      = decode_access_token cfg0 tokBadSig 2000 := by decide

/-- Claim C6, amended: verification fails on bad signatures, malformed
structure, and expiry as claimed, but the two failure kinds are not
distinguishable to the caller of decode_access_token: every jose-level
failure is collapsed into the single HTTPException 401 "Invalid or
expired token". -/
theorem decode_error_collapse (cfg : Config) (w : Wire) (now : Int)
    (e : JoseError)
    (h : jose_decode w cfg.secret_key [cfg.algorithm] now = Except.error e) :
    decode_access_token cfg w now
      = Except.error ⟨401, "Invalid or expired token"⟩ := by
  simp [decode_access_token, h]

/-- Claim C6, witness: the collapse applied to a malformed token. -/
theorem decode_error_collapse_witness :
    decode_access_token cfg0 (Wire.raw "junk") 0
      = Except.error ⟨401, "Invalid or expired token"⟩ :=
  decode_error_collapse cfg0 (Wire.raw "junk") 0 JoseError.malformed (by decide)

/-- Claim C7, counterexample: issuing with a zero delta does not produce
an immediately expired token.  The Python expression
(expires_delta or timedelta(minutes=ACCESS_TOKEN_EXPIRE_MINUTES)) treats
the zero timedelta as falsy, silently substituting the configured default
(30 minutes under cfg0), so the token verifies successfully right after
issuance instead of failing with an expiry error. -/
theorem zero_lifetime_counterexample :
    decode_access_token cfg0 (create_access_token cfg0 data0 (some 0) 1000) 1000
      = Except.ok [("sub", CVal.s "alice"), ("exp", CVal.i 2800)] := by decide

/-- Claim C7, amended: issuance never rejects a non-positive lifetime, but
only a negative lifetime yields a token that fails verification with the
expiry error at every time at or after issuance; a zero lifetime is falsy
in Python and silently selects the configured default lifetime, behaving
exactly like omitting the delta. -/
theorem nonpositive_lifetime_amended :
    (∀ (cfg : Config) (data : Claims) (L now t : Int), L < 0 → now ≤ t →
        dictGet data "iat" = none → dictGet data "nbf" = none →
        jose_decode (create_access_token cfg data (some L) now) cfg.secret_key
            [cfg.algorithm] t
          = Except.error JoseError.expiredSignature) ∧
    (∀ (cfg : Config) (data : Claims) (now : Int),
        create_access_token cfg data (some 0) now
          = create_access_token cfg data none now) := by
  constructor
  · intro cfg data L now t hL ht hiat hnbf
    have hL0 : L ≠ 0 := by omega
    have hexp : now + L < t := by omega
    have h1 : dictGet (dictSet data "exp" (CVal.i (now + L))) "iat" = none := by
      rw [dictGet_dictSet_ne _ _ _ _ (by decide)]; exact hiat
    have h2 : dictGet (dictSet data "exp" (CVal.i (now + L))) "nbf" = none := by
      rw [dictGet_dictSet_ne _ _ _ _ (by decide)]; exact hnbf
    have h7 : dictGet (dictSet data "exp" (CVal.i (now + L))) "exp"
        = some (CVal.i (now + L)) := dictGet_dictSet_self data "exp" _
    simp [jose_decode, create_access_token, jwt_encode, pyOrDefault, hL0,
      check_iat, check_nbf, check_exp, cvalAsInt, h1, h2, h7, hexp]
  · intro cfg data now
    simp [create_access_token, pyOrDefault]

/-- Claim C7, witness: a negative-lifetime token is expired at issuance
time. -/
theorem nonpositive_lifetime_amended_witness :
    jose_decode (create_access_token cfg0 data0 (some (-60)) 1000) "topsecret"
        ["HS256"] 1000 = Except.error JoseError.expiredSignature :=
  nonpositive_lifetime_amended.1 cfg0 data0 (-60) 1000 1000 (by decide)
    (by decide) (by decide) (by decide)

/-- Claim C4, counterexample: an environment whose lifetime setting is
"0" — an integer that is not positive — does not abort startup: the
falsiness check only catches absent or empty settings and int("0")
succeeds, so configuration load completes with a zero lifetime. -/
theorem config_zero_lifetime_counterexample :
    load_auth_config env0 = Except.ok ⟨"s", "HS256", 0⟩ := by decide

/-- Claim C4, amended: startup aborts exactly when one of the three
settings is absent or empty or the lifetime text does not parse as an
integer; whenever all three are present and non-empty and the lifetime
parses as an integer — positive, zero, or negative — startup proceeds. -/
theorem config_guard_amended (env : Env) :
    (∃ c, load_auth_config env = Except.ok c) ↔ env_ok env = true := by
  unfold load_auth_config env_ok
  cases hs : falsyOpt (env "SECRET_KEY") <;>
    cases ha : falsyOpt (env "ALGORITHM") <;>
      cases he : falsyOpt (env "ACCESS_TOKEN_EXPIRE_MINUTES") <;>
        simp [hs, ha, he]
  cases hp : pyInt ((env "ACCESS_TOKEN_EXPIRE_MINUTES").getD "") <;> simp [hp]

/-- Claim C4, witness: the amended equivalence instantiated at env0. -/
theorem config_guard_amended_witness :
    ∃ c, load_auth_config env0 = Except.ok c :=
  (config_guard_amended env0).mpr (by decide)

/-- Claim C5, counterexample: verifying any password against the
unidentifiable stored hash "notahash" raises passlib UnknownHashError (a
ValueError) instead of returning the boolean false that the claim
demands. -/
theorem verify_malformed_hash_counterexample :
    verify_password (fun _ _ => false) "x" "notahash"
        = Except.error PasslibError.unknownHash
      ∧ verify_password (fun _ _ => false) "x" "notahash"
        ≠ Except.ok false := by decide

/-- Claim C5, amended: verify returns a boolean for every password
against every identifiable, structurally well-formed bcrypt hash; for a
hash string no configured scheme identifies it raises UnknownHashError
rather than returning false. -/
theorem verify_password_amended :
    (∀ (bc : String → String → Bool) (pw h : String),
        bcrypt_identify h = true → bcrypt_wellformed h = true →
        verify_password bc pw h = Except.ok (bc pw h)) ∧
    (∀ (bc : String → String → Bool) (pw h : String),
        bcrypt_identify h = false →
        verify_password bc pw h = Except.error PasslibError.unknownHash) := by
  constructor
  · intro bc pw h h1 h2
    simp [verify_password, h1, h2]
  · intro bc pw h h1
    simp [verify_password, h1]

/-- Claim C5, witness: a well-formed bcrypt hash yields the oracle
boolean; the unidentifiable hash raises. -/
theorem verify_password_amended_witness :
    verify_password (fun _ _ => true) "correct-horse" hash0 = Except.ok true ∧
    verify_password (fun _ _ => true) "x" "notahash"
      = Except.error PasslibError.unknownHash :=
  ⟨verify_password_amended.1 (fun _ _ => true) "correct-horse" hash0
      (by decide) (by decide),
   verify_password_amended.2 (fun _ _ => true) "x" "notahash" (by decide)⟩
